import Mathlib

/-!
Verification of the detection facade in `src/unnamed/part_000`
(react-native-data-detector).

The facade consists of two functions:

  async function downloadModel() { return NativeModule.downloadModel(); }

  async function detect(text, options?) {
    const types = options?.types ?? ['phoneNumber', 'link', 'email', 'address', 'date'];
    return NativeModule.detect(text, types);
  }

The native module (iOS NSDataDetector / Android ML Kit adapters) and the
types file `ReactNativeDataDetector.types` are part of the repository but
absent from the provided sources, so the data shapes and native behaviour
are modelled from the specification, while the facade itself is embedded
directly from the source.  The native boundary is a parameter: a function
from the text and the requested types to either a result list or an error
message, mirroring the asynchronous call that resolves or rejects.
-/

/-- Modelled from the spec: the closed, fixed set of five entity-type tags
(the repository's `ReactNativeDataDetector.types` file is not among the
provided sources; the five tags match the string literals in the facade). -/
inductive EntityType where
  | phoneNumber
  | link
  | email
  | address
  | date
  deriving DecidableEq, Repr

/-- Modelled from the spec: the result unit of detection — a tag naming the
matched entity type, the exact matched substring, the start/end character
offsets into the original input, and an optional string-keyed mapping of
extracted sub-fields. `endPos` stands for the source field `end`, a
reserved word in Lean. -/
structure DetectedEntity where
  type : EntityType
  text : String
  start : Nat
  endPos : Nat
  data : List (String × String)
  deriving DecidableEq, Repr

/-- Modelled from the spec: the optional configuration object; its `types`
field may itself be absent (`options?.types` in the source). -/
structure DetectOptions where
  types : Option (List EntityType)
  deriving DecidableEq, Repr

/-- The native detection boundary `NativeModule.detect`: given the text and
the requested types it either resolves with a list of entities or rejects
with an error message. -/
abbrev NativeDetect := String → List EntityType → Except String (List DetectedEntity)

/-- The native model-download boundary `NativeModule.downloadModel`: it
either resolves with a boolean or rejects with an error message. -/
abbrev NativeDownload := Unit → Except String Bool

/-- The five-element default written inline on line 24 of the facade. -/
def defaultTypes : List EntityType :=
  [EntityType.phoneNumber, EntityType.link, EntityType.email,
   EntityType.address, EntityType.date]

/-- Line 24 of the facade:
`const types = options?.types ?? ['phoneNumber', 'link', 'email', 'address', 'date'];`
— the optional chaining collapses an absent `options` and an absent
`options.types` alike to the default, while any present array (including
the empty one) is kept. -/
def resolvedTypes (options : Option DetectOptions) : List EntityType :=
  (options.bind DetectOptions.types).getD defaultTypes

/-- Lines 20–26 of the facade: resolve the types, then return exactly
`NativeModule.detect(text, types)`. -/
def detect (native : NativeDetect) (text : String)
    (options : Option DetectOptions) : Except String (List DetectedEntity) :=
  native text (resolvedTypes options)

/-- Lines 12–14 of the facade: `return NativeModule.downloadModel();`. -/
def downloadModel (native : NativeDownload) : Except String Bool :=
  native ()

/-- The facade of lines 20–26 again, with the native module's internal
state made explicit: the native call receives the ambient state and
returns its successor along with the result.  The facade threads no state
of its own — it merely performs the single native call. -/
def detectS {σ : Type} (native : σ → String → List EntityType →
      Except String (List DetectedEntity) × σ)
    (s : σ) (text : String) (options : Option DetectOptions) :
    Except String (List DetectedEntity) × σ :=
  native s text (resolvedTypes options)

/-- Modelled from the spec: a native backend respects the requested-type
filter when every entity it returns carries one of the requested tags
(spec section 8: a types filter excludes entities of other types even when
matching substrings exist). -/
def RespectsFilter (native : NativeDetect) : Prop :=
  ∀ text types res, native text types = Except.ok res →
    ∀ e ∈ res, e.type ∈ types

/-- Modelled from the spec: on a platform whose detector requires no model
download (iOS), the native `downloadModel` is a no-op that resolves with
`false`, reporting that no download was needed. -/
def noModelNativeDownload : NativeDownload := fun _ => Except.ok false

/-- An instrumented native backend that echoes the exact text it received
back as the matched substring of a single entity. -/
def echoNative : NativeDetect := fun text _ =>
  Except.ok [⟨EntityType.link, text, 0, text.length, []⟩]

/-- A concrete entity used to instantiate witnesses. -/
def sampleEntity : DetectedEntity :=
  ⟨EntityType.email, "john@example.com", 30, 46, [("normalized", "john@example.com")]⟩

/-- Claim C1: with an explicitly empty `types` array, the effective filter
is the empty set — not the five-type default — and, for any native backend
that respects the requested-type filter, the returned sequence is empty. -/
theorem detect_empty_types (native : NativeDetect) (T : String)
    (hf : RespectsFilter native) (res : List DetectedEntity)
    (hres : detect native T (some ⟨some []⟩) = Except.ok res) :
    resolvedTypes (some ⟨some []⟩) = [] ∧
      resolvedTypes (some ⟨some []⟩) ≠ defaultTypes ∧ res = [] := by
  refine ⟨rfl, by decide, ?_⟩
  have h : ∀ e ∈ res, e.type ∈ ([] : List EntityType) := hf T [] res hres
  cases res with
  | nil => rfl
  | cons e rest =>
      exact absurd (h e (List.mem_cons_self e rest)) (List.not_mem_nil e.type)

/-- Witness for C1 at a concrete filter-respecting backend and text. -/
theorem detect_empty_types_witness :
    resolvedTypes (some ⟨some []⟩) = [] ∧
      resolvedTypes (some ⟨some []⟩) ≠ defaultTypes ∧
      ([] : List DetectedEntity) = [] :=
  detect_empty_types (fun _ _ => Except.ok []) "Call me at (555) 123-4567"
    (by intro t tys res h e he
        cases h
        exact absurd he (List.not_mem_nil e))
    [] rfl

/-- Claim C2: with `options` omitted, the filter the facade passes to the
native detector is exactly the fixed five-type set, and the call is the
native call on that set. -/
theorem detect_omitted_passes_all_five (native : NativeDetect) (T : String) :
    resolvedTypes none =
      [EntityType.phoneNumber, EntityType.link, EntityType.email,
       EntityType.address, EntityType.date] ∧
    detect native T none =
      native T [EntityType.phoneNumber, EntityType.link, EntityType.email,
                EntityType.address, EntityType.date] :=
  ⟨rfl, rfl⟩

/-- Claim C3, counterexample: the facade's `downloadModel` result varies
with the native layer's answer, so the facade does not return a fixed
result "without invoking the native layer at all" — it consults the
native module on every call. -/
theorem downloadModel_consults_native :
    downloadModel (fun _ => Except.ok true) ≠
      downloadModel (fun _ => Except.ok false) := by
  intro h
  exact Bool.noConfusion (Except.ok.inj h)

/-- Claim C3, amended: on a platform whose detector requires no model
download, `downloadModel()` still invokes the native module; that
platform's native implementation is a no-op resolving with `false`
("no download needed"), and the facade returns that fixed result
unchanged. -/
theorem downloadModel_noModelPlatform :
    downloadModel noModelNativeDownload = Except.ok false := rfl

/-- Claim C4: whatever sequence the native detector returns for the
resolved filter is exactly what `detect` returns — element for element,
in the same order, with no deduplication, re-sorting or re-validation. -/
theorem detect_returns_native_sequence (native : NativeDetect) (T : String)
    (opts : Option DetectOptions) (res : List DetectedEntity)
    (h : native T (resolvedTypes opts) = Except.ok res) :
    detect native T opts = Except.ok res := h

/-- Witness for C4 at a concrete backend returning a duplicated, unsorted
sequence, which the facade passes through untouched. -/
theorem detect_returns_native_sequence_witness :
    detect (fun _ _ => Except.ok [sampleEntity, sampleEntity]) "x" none =
      Except.ok [sampleEntity, sampleEntity] :=
  detect_returns_native_sequence (fun _ _ => Except.ok [sampleEntity, sampleEntity])
    "x" none [sampleEntity, sampleEntity] rfl

/-- Claim C5: the facade passes the text down verbatim — a native backend
that echoes the exact string it received echoes `T` itself, untrimmed and
unfolded — and the facade performs no detection of its own: its output is
fully determined by the native backend's answer at `T` and the resolved
filter. -/
theorem detect_text_unaltered (native1 native2 : NativeDetect) (T : String)
    (opts : Option DetectOptions)
    (h : native1 T (resolvedTypes opts) = native2 T (resolvedTypes opts)) :
    detect echoNative T opts =
      Except.ok [⟨EntityType.link, T, 0, T.length, []⟩] ∧
    detect native1 T opts = detect native2 T opts :=
  ⟨rfl, h⟩

/-- Witness for C5 at two concrete backends agreeing on a concrete text. -/
theorem detect_text_unaltered_witness :
    detect echoNative "  Visit https://reactnative.dev  " none =
      Except.ok [⟨EntityType.link, "  Visit https://reactnative.dev  ", 0,
        ("  Visit https://reactnative.dev  ").length, []⟩] ∧
    detect (fun _ _ => Except.ok []) "  Visit https://reactnative.dev  " none =
      detect (fun _ _ => Except.ok []) "  Visit https://reactnative.dev  " none :=
  detect_text_unaltered (fun _ _ => Except.ok []) (fun _ _ => Except.ok [])
    "  Visit https://reactnative.dev  " none rfl

/-- Claim C6: when the native detector rejects with an error message, the
facade fails with that same message unmodified, and never yields any
result list alongside it — no retry, no recovery, no partial results. -/
theorem detect_error_propagation (native : NativeDetect) (T : String)
    (opts : Option DetectOptions) (msg : String)
    (h : native T (resolvedTypes opts) = Except.error msg) :
    detect native T opts = Except.error msg ∧
      ∀ res : List DetectedEntity, detect native T opts ≠ Except.ok res := by
  refine ⟨h, ?_⟩
  intro res hres
  rw [detect, h] at hres
  exact Except.noConfusion hres

/-- Witness for C6 at a concrete failing backend. -/
theorem detect_error_propagation_witness :
    detect (fun _ _ => Except.error "entity extraction failed") "x" none =
      Except.error "entity extraction failed" ∧
    ∀ res : List DetectedEntity,
      detect (fun _ _ => Except.error "entity extraction failed") "x" none ≠
        Except.ok res :=
  detect_error_propagation (fun _ _ => Except.error "entity extraction failed")
    "x" none "entity extraction failed" rfl

/-- Claim C7: `detect(T)` with options omitted and
`detect(T, types := all five types)` make the identical native call and
return the identical result. -/
theorem detect_omitted_eq_all_five (native : NativeDetect) (T : String) :
    detect native T none =
      detect native T (some ⟨some [EntityType.phoneNumber, EntityType.link,
        EntityType.email, EntityType.address, EntityType.date]⟩) := rfl

/-- Claim C8: the facade threads no state of its own: for a deterministic
native backend (one whose result does not depend on its internal state),
a second call with identical arguments — run in the state the first call
left behind — yields the same result sequence as the first. -/
theorem detect_stateless (σ : Type)
    (native : σ → String → List EntityType →
      Except String (List DetectedEntity) × σ)
    (s : σ) (T : String) (opts : Option DetectOptions)
    (hdet : ∀ s1 s2 : σ,
      (native s1 T (resolvedTypes opts)).1 = (native s2 T (resolvedTypes opts)).1) :
    (detectS native s T opts).1 =
      (detectS native (detectS native s T opts).2 T opts).1 :=
  hdet s (detectS native s T opts).2

/-- Witness for C8 at a concrete call-counting backend whose result is
state-independent. -/
theorem detect_stateless_witness :
    (detectS (fun (s : Nat) _ _ => (Except.ok ([] : List DetectedEntity), s + 1))
        0 "x" none).1 =
      (detectS (fun (s : Nat) _ _ => (Except.ok ([] : List DetectedEntity), s + 1))
        ((detectS (fun (s : Nat) _ _ =>
          (Except.ok ([] : List DetectedEntity), s + 1)) 0 "x" none).2) "x" none).1 :=
  detect_stateless Nat (fun s _ _ => (Except.ok [], s + 1)) 0 "x" none
    (fun _ _ => rfl)

/-- Claim C9: an options object whose `types` field is absent behaves
exactly like omitted options: the filter resolves to the five-type
default and the native call is identical. -/
theorem detect_types_field_absent (native : NativeDetect) (T : String) :
    detect native T (some ⟨none⟩) = detect native T none ∧
      resolvedTypes (some ⟨none⟩) = defaultTypes :=
  ⟨rfl, rfl⟩

/-- Claim C10: any present `types` array is forwarded to the native
detector verbatim — duplicates kept, caller order kept, no validation —
for every list, including one with repeated and unordered tags. -/
theorem detect_forwards_types_verbatim (native : NativeDetect) (T : String)
    (tys : List EntityType) :
    detect native T (some ⟨some tys⟩) = native T tys ∧
      resolvedTypes (some ⟨some tys⟩) = tys :=
  ⟨rfl, rfl⟩
